import Mathlib

/-!
Shallow embedding of the real-time-market-sentiment-analyzer repository
(src/config.py and src/data_collector.py) and proofs about it.

The process environment is modelled as a partial map from variable names to
string values, and the file system as an existence predicate on paths.
Python arbitrary-precision integers are modelled by Int; Python floats are
modelled by exact rationals (Rat) — every numeric literal the configuration
code handles by default ("15", "0.3") and every value the specification
mentions ("30", "0.5") is exactly representable, and only parse
success/failure and these exact values are at stake.
-/

deriving instance DecidableEq for Except

/-- The readable environment after dotenv loading: os.getenv k returns
some value or none when the variable is unset. -/
abbrev Env := String → Option String

/-- The file system, as seen by os.path.exists: a path-existence predicate. -/
abbrev FS := String → Bool

/-- os.getenv k d: the value of k, defaulting to the literal d when unset. -/
def getenvD (env : Env) (k d : String) : String :=
  (env k).getD d

/-- Errors raised during configuration construction: FileNotFoundError from
FirebaseConfig validation, and ValueError from int()/float() parsing. -/
inductive ConfigError where
  | fileNotFound (msg : String)
  | valueError (msg : String)
deriving DecidableEq

/-- Embeds the FirebaseConfig dataclass of src/config.py. -/
structure FirebaseConfig where
  project_id : String
  service_account_path : String
  database_url : String
deriving DecidableEq

/-- Embeds FirebaseConfig construction including its post-init hook, which
raises FileNotFoundError when the service-account path does not exist. -/
def mkFirebaseConfig (project_id service_account_path database_url : String)
    (fs : FS) : Except ConfigError FirebaseConfig :=
  if fs service_account_path then
    .ok { project_id, service_account_path, database_url }
  else
    .error (.fileNotFound
      ("Firebase service account file not found: " ++ service_account_path))

/-- Embeds the APIConfig dataclass of src/config.py. -/
structure APIConfig where
  twitter_bearer_token : Option String
  newsapi_key : Option String
  alpha_vantage_key : Option String
deriving DecidableEq

/-- Python truthiness of a string: empty strings are falsy. -/
def pyTruthyStr (s : String) : Bool :=
  decide (s ≠ "")

/-- Embeds the has_twitter_access property:
bool(self.twitter_bearer_token and len(self.twitter_bearer_token) > 50). -/
def APIConfig.has_twitter_access (c : APIConfig) : Bool :=
  match c.twitter_bearer_token with
  | none => false
  | some t => pyTruthyStr t && decide (50 < t.length)

/-- Embeds the AnalysisConfig dataclass of src/config.py. -/
structure AnalysisConfig where
  symbols_to_track : List String
  update_interval_minutes : Int
  sentiment_threshold : Rat
  lookback_period_days : Int
deriving DecidableEq

/-- Embeds AnalysisConfig construction including its dataclass defaults and
its post-init hook: an argument given as none stands for a parameter that
was not passed, and symbols_to_track is replaced by the five-symbol default
list when it was not passed (the post-init None check). -/
def mkAnalysisConfig (symbols : Option (List String))
    (update_interval : Option Int) (threshold : Option Rat)
    (lookback : Option Int) : AnalysisConfig :=
  { symbols_to_track := symbols.getD ["AAPL", "GOOGL", "MSFT", "TSLA", "BTC-USD"]
    update_interval_minutes := update_interval.getD 15
    sentiment_threshold := threshold.getD (mkRat 3 10)
    lookback_period_days := lookback.getD 7 }

/-- Characters Python's int()/float() strip from both ends of the argument
(ASCII whitespace; unicode whitespace is not modelled). -/
def isPySpace (c : Char) : Bool :=
  c = ' ' || c = '\t' || c = '\n' || c = '\r' || c = '\x0b' || c = '\x0c'

/-- A nonempty run of decimal digits, as a natural number; none otherwise. -/
def parseUnsignedDigits (l : List Char) : Option Nat :=
  if l.isEmpty then none
  else
    l.foldl (fun acc c =>
      match acc with
      | none => none
      | some n => if c.isDigit then some (n * 10 + (c.toNat - 48)) else none)
      (some 0)

/-- Strip the whitespace int()/float() ignore at both ends. -/
def pyStrip (l : List Char) : List Char :=
  ((l.dropWhile isPySpace).reverse.dropWhile isPySpace).reverse

/-- Embeds Python int(s) on decimal strings: optional surrounding
whitespace, optional sign, a nonempty digit run; none models ValueError.
(Underscore grouping and non-ASCII digits are not modelled.) -/
def pyInt (s : String) : Option Int :=
  match pyStrip s.data with
  | '+' :: ds => (parseUnsignedDigits ds).map (fun n => (n : Int))
  | '-' :: ds => (parseUnsignedDigits ds).map (fun n => -(n : Int))
  | ds => (parseUnsignedDigits ds).map (fun n => (n : Int))

/-- Embeds Python str.split(sep) for a one-character separator: the list of
maximal separator-free runs, kept verbatim; the empty string splits to a
single empty field, so the result is never empty. -/
def pySplit (sep : Char) : List Char → List (List Char)
  | [] => [[]]
  | c :: cs =>
    match pySplit sep cs with
    | [] => [[c]]
    | h :: t => if c = sep then [] :: h :: t else (c :: h) :: t

/-- Embeds Python sep.join for a one-character separator. -/
def pyJoin (sep : Char) : List (List Char) → List Char
  | [] => []
  | [x] => x
  | x :: y :: t => x ++ sep :: pyJoin sep (y :: t)

/-- str.split lifted to String. -/
def pySplitStr (sep : Char) (s : String) : List String :=
  (pySplit sep s.data).map String.mk

/-- Number of occurrences of a character in a string. -/
def countChar (c : Char) (s : String) : Nat :=
  s.data.count c

/-- Signed nonempty digit run, for float exponents. -/
def parseSignedInt : List Char → Option Int
  | '+' :: ds => (parseUnsignedDigits ds).map (fun n => (n : Int))
  | '-' :: ds => (parseUnsignedDigits ds).map (fun n => -(n : Int))
  | ds => (parseUnsignedDigits ds).map (fun n => (n : Int))

/-- The mantissa of a float literal: digits, optionally with one decimal
point, at least one digit in total. Returns the digit string read as a
natural number together with the count of fractional digits, so the
mantissa value is the first component divided by ten to the second. -/
def parseMantissaParts (l : List Char) : Option (Nat × Nat) :=
  match pySplit '.' l with
  | [ds] => (parseUnsignedDigits ds).map (fun n => (n, 0))
  | [ip, fp] =>
    if ip.isEmpty && fp.isEmpty then none
    else
      match parseUnsignedDigits (if ip.isEmpty then ['0'] else ip),
            parseUnsignedDigits (if fp.isEmpty then ['0'] else fp) with
      | some i, some f => some (i * 10 ^ fp.length + f, fp.length)
      | _, _ => none
  | _ => none

/-- The rational num / 10 ^ k * 10 ^ e, as a normalized fraction. -/
def ratOfSci (num : Nat) (k : Nat) (e : Int) : Rat :=
  let t := e - (k : Int)
  if 0 ≤ t then mkRat ((num : Int) * (10 : Int) ^ t.toNat) 1
  else mkRat ((num : Int)) ((10 : Nat) ^ (-t).toNat)

/-- Apply an optional leading sign and parse the rest with f. -/
def parseSigned (f : List Char → Option Rat) : List Char → Option Rat
  | '+' :: rest => f rest
  | '-' :: rest => (f rest).map Neg.neg
  | l => f l

/-- Embeds Python float(s) on decimal literals: optional surrounding
whitespace, optional sign, digits with an optional decimal point, and an
optional e/E exponent; none models ValueError. (inf/nan literals and
underscore grouping are not modelled; values are exact rationals.) -/
def pyFloat (s : String) : Option Rat :=
  let l := (pyStrip s.data).map (fun c => if c = 'E' then 'e' else c)
  parseSigned (fun m =>
    match pySplit 'e' m with
    | [mant] => (parseMantissaParts mant).map (fun p => ratOfSci p.1 p.2 0)
    | [mant, ex] =>
      match parseMantissaParts mant, parseSignedInt ex with
      | some p, some e => some (ratOfSci p.1 p.2 e)
      | _, _ => none
    | _ => none) l

/-- Embeds the AnalysisConfig construction expression inside
Config._initialize: the comma-split of SYMBOLS_TO_TRACK (default literal
"AAPL,GOOGL,MSFT"), int(UPDATE_INTERVAL default "15"), and
float(SENTIMENT_THRESHOLD default "0.3"), evaluated in that order, each
parse failure raising ValueError. -/
def mkAnalysisFromEnv (env : Env) : Except ConfigError AnalysisConfig :=
  let symStr := getenvD env "SYMBOLS_TO_TRACK" "AAPL,GOOGL,MSFT"
  let intStr := getenvD env "UPDATE_INTERVAL" "15"
  let floatStr := getenvD env "SENTIMENT_THRESHOLD" "0.3"
  match pyInt intStr with
  | none => .error (.valueError
      ("invalid literal for int() with base 10: " ++ intStr))
  | some i =>
    match pyFloat floatStr with
    | none => .error (.valueError
        ("could not convert string to float: " ++ floatStr))
    | some t =>
      .ok (mkAnalysisConfig (some (pySplitStr ',' symStr)) (some i) (some t) none)

/-- A Config object as Python attribute state: each attribute is none until
the corresponding assignment in _initialize has executed, so a failed
construction leaves a partially-populated object. -/
structure ConfigObj where
  firebase : Option FirebaseConfig
  api : Option APIConfig
  analysis : Option AnalysisConfig
  log_level : Option String
deriving DecidableEq

/-- Embeds Config._initialize of src/config.py: assigns firebase (whose
construction validates the service-account path), then api, then analysis
(whose construction parses the numeric variables), then log_level; the
first exception stops execution there (it is logged and re-raised), leaving
the attributes assigned so far. Returns the attribute state together with
the raised exception, if any. -/
def runInit (env : Env) (fs : FS) : ConfigObj × Option ConfigError :=
  match mkFirebaseConfig
      (getenvD env "FIREBASE_PROJECT_ID" "market-sentiment-analyzer")
      (getenvD env "FIREBASE_SERVICE_ACCOUNT" "./service_account.json")
      (getenvD env "FIREBASE_DATABASE_URL"
        "https://market-sentiment-analyzer.firebaseio.com") fs with
  | .error e => (⟨none, none, none, none⟩, some e)
  | .ok fb =>
    let api : APIConfig :=
      ⟨env "TWITTER_BEARER_TOKEN", env "NEWSAPI_KEY", env "ALPHA_VANTAGE_KEY"⟩
    match mkAnalysisFromEnv env with
    | .error e => (⟨some fb, some api, none, none⟩, some e)
    | .ok an =>
      (⟨some fb, some api, some an, some (getenvD env "LOG_LEVEL" "INFO")⟩, none)

/-- One run of Config._initialize as an Except: ok with the fully-populated
object, or the raised error. -/
def configInit (env : Env) (fs : FS) : Except ConfigError ConfigObj :=
  match runInit env fs with
  | (obj, none) => .ok obj
  | (_, some e) => .error e

/-- Embeds Config.__new__ of src/config.py acting on the class-level
_instance slot: when the slot is empty, a fresh object is bound to the slot
BEFORE _initialize runs on it, so the slot keeps the (possibly partial)
object even when initialization raises; when the slot is filled, the held
object is returned unchanged and nothing is re-read or re-validated.
Returns the new slot and the call result (ok obj, or the propagated error). -/
def configNew (env : Env) (fs : FS) (slot : Option ConfigObj) :
    Option ConfigObj × Except ConfigError ConfigObj :=
  match slot with
  | some obj => (some obj, .ok obj)
  | none =>
    match runInit env fs with
    | (obj, none) => (some obj, .ok obj)
    | (obj, some e) => (some obj, .error e)

/-- A DataSource object of src/data_collector.py: its only state is the
source_name stored by __init__. -/
structure DataSource where
  source_name : String
deriving DecidableEq

/-- The method names marked @abstractmethod in the body of class
DataSource(ABC): the source marks none (abstractmethod is imported but
never applied). -/
def dataSourceAbstractMethodNames : List String := []

/-- Embeds direct instantiation DataSource(source_name): ABCMeta refuses to
instantiate a class exactly when its set of abstract methods is nonempty
(raising TypeError); otherwise __init__ runs and stores source_name with no
validation. -/
def dataSourceNew (source_name : String) : Except String DataSource :=
  if dataSourceAbstractMethodNames.isEmpty then
    .ok { source_name }
  else
    .error ("Can't instantiate abstract class DataSource with abstract methods "
      ++ String.intercalate ", " dataSourceAbstractMethodNames)

/-- An environment with every variable unset. -/
def envNone : Env := fun _ => none

/-- A file system on which every path exists. -/
def fsTrue : FS := fun _ => true

/-- A file system on which no path exists. -/
def fsFalse : FS := fun _ => false

/-- The configuration object produced from the empty environment on a file
system where the default credential path exists. -/
def cfgEx : ConfigObj :=
  ⟨some ⟨"market-sentiment-analyzer", "./service_account.json",
     "https://market-sentiment-analyzer.firebaseio.com"⟩,
   some ⟨none, none, none⟩,
   some ⟨["AAPL", "GOOGL", "MSFT"], 15, mkRat 3 10, 7⟩,
   some "INFO"⟩

/-- An environment that sets only SYMBOLS_TO_TRACK, to a value with
surrounding whitespace inside one entry. -/
def envSym : Env :=
  fun k => if k = "SYMBOLS_TO_TRACK" then some " AAPL ,MSFT" else none

/-- The configuration object produced from envSym on fsTrue. -/
def cfgSym : ConfigObj :=
  ⟨some ⟨"market-sentiment-analyzer", "./service_account.json",
     "https://market-sentiment-analyzer.firebaseio.com"⟩,
   some ⟨none, none, none⟩,
   some ⟨[" AAPL ", "MSFT"], 15, mkRat 3 10, 7⟩,
   some "INFO"⟩

/-- An environment that sets UPDATE_INTERVAL to "30" and
SENTIMENT_THRESHOLD to "0.5". -/
def envNum : Env :=
  fun k =>
    if k = "UPDATE_INTERVAL" then some "30"
    else if k = "SENTIMENT_THRESHOLD" then some "0.5"
    else none

/-- An environment that sets UPDATE_INTERVAL to the non-numeric "abc". -/
def envBadInt : Env :=
  fun k => if k = "UPDATE_INTERVAL" then some "abc" else none

/-- An environment that sets SENTIMENT_THRESHOLD to the non-numeric "xyz". -/
def envBadFloat : Env :=
  fun k => if k = "SENTIMENT_THRESHOLD" then some "xyz" else none

/-- An environment with a malformed UPDATE_INTERVAL and
FIREBASE_SERVICE_ACCOUNT pointing at a missing path. -/
def envBadBoth : Env :=
  fun k =>
    if k = "UPDATE_INTERVAL" then some "abc"
    else if k = "FIREBASE_SERVICE_ACCOUNT" then some "/missing/creds.json"
    else none

/-- str.split on a one-character separator never returns an empty list. -/
theorem pySplit_ne_nil (sep : Char) (l : List Char) : pySplit sep l ≠ [] := by
  cases l with
  | nil => simp [pySplit]
  | cons c cs =>
    cases hps : pySplit sep cs with
    | nil => simp [pySplit, hps]
    | cons h t => by_cases hc : c = sep <;> simp [pySplit, hps, hc]

/-- str.split on a one-character separator returns one more field than
there are separator occurrences. -/
theorem pySplit_length (sep : Char) (l : List Char) :
    (pySplit sep l).length = l.count sep + 1 := by
  induction l with
  | nil => simp [pySplit]
  | cons c cs ih =>
    cases hps : pySplit sep cs with
    | nil => exact absurd hps (pySplit_ne_nil sep cs)
    | cons h t =>
      rw [hps] at ih
      simp only [List.length_cons] at ih
      by_cases hc : c = sep
      · subst hc
        simp [pySplit, hps, List.count_cons_self]
        omega
      · simp [pySplit, hps, hc, List.count_cons_of_ne (Ne.symm hc)]
        omega

/-- Joining the fields of str.split with the separator restores the input
verbatim: no field is trimmed, dropped, or altered. -/
theorem pyJoin_pySplit (sep : Char) (l : List Char) :
    pyJoin sep (pySplit sep l) = l := by
  induction l with
  | nil => simp [pySplit, pyJoin]
  | cons c cs ih =>
    cases hps : pySplit sep cs with
    | nil => exact absurd hps (pySplit_ne_nil sep cs)
    | cons h t =>
      rw [hps] at ih
      by_cases hc : c = sep
      · subst hc
        simp only [pySplit, hps, if_pos rfl, pyJoin, List.nil_append]
        rw [ih]
      · cases t with
        | nil =>
          simp only [pySplit, hps, if_neg hc, pyJoin] at ih ⊢
          rw [ih]
        | cons b t2 =>
          simp only [pySplit, hps, if_neg hc, pyJoin] at ih ⊢
          rw [List.cons_append, ih]

/-- Inversion for a successful AnalysisConfig construction inside
_initialize: both numeric parses succeeded and the result is the dataclass
applied to the comma-split symbols and the parsed numbers. -/
theorem mkAnalysisFromEnv_ok_inv (env : Env) (a : AnalysisConfig)
    (h : mkAnalysisFromEnv env = .ok a) :
    ∃ i t,
      pyInt (getenvD env "UPDATE_INTERVAL" "15") = some i ∧
      pyFloat (getenvD env "SENTIMENT_THRESHOLD" "0.3") = some t ∧
      a = mkAnalysisConfig
        (some (pySplitStr ','
          (getenvD env "SYMBOLS_TO_TRACK" "AAPL,GOOGL,MSFT")))
        (some i) (some t) none := by
  simp only [mkAnalysisFromEnv] at h
  split at h
  · exact absurd h (by simp)
  · rename_i i hi
    split at h
    · exact absurd h (by simp)
    · rename_i t ht
      refine ⟨i, t, hi, ht, ?_⟩
      injection h with h2
      exact h2.symm

/-- Inversion for a successful run of _initialize: every attribute is
populated, and analysis comes from the environment parses. -/
theorem configInit_ok_inv (env : Env) (fs : FS) (c : ConfigObj)
    (h : configInit env fs = .ok c) :
    ∃ i t,
      pyInt (getenvD env "UPDATE_INTERVAL" "15") = some i ∧
      pyFloat (getenvD env "SENTIMENT_THRESHOLD" "0.3") = some t ∧
      c.analysis = some (mkAnalysisConfig
        (some (pySplitStr ','
          (getenvD env "SYMBOLS_TO_TRACK" "AAPL,GOOGL,MSFT")))
        (some i) (some t) none) := by
  unfold configInit at h
  split at h
  · rename_i obj heq
    injection h with h2
    subst h2
    simp only [runInit] at heq
    split at heq
    · simp at heq
    · rename_i fb hfb
      split at heq
      · simp at heq
      · rename_i an han
        obtain ⟨i, t, hi, ht, rfl⟩ := mkAnalysisFromEnv_ok_inv env an han
        rw [Prod.mk.injEq] at heq
        obtain ⟨hobj, -⟩ := heq
        subst hobj
        exact ⟨i, t, hi, ht, rfl⟩
  · exact absurd h (by simp)

/-- C5: the claim says direct instantiation of the DataSource base must
always fail; on the source it succeeds, because the class body marks no
method with abstractmethod, and ABCMeta only refuses instantiation when the
set of abstract methods is nonempty. Evaluated at the failing input
DataSource("twitter"): instantiation returns an object holding the name. -/
theorem dataSource_direct_instantiation_succeeds :
    dataSourceNew "twitter" = .ok { source_name := "twitter" } := rfl

/-- C6 counterexample: the claim says construction with the empty string is
rejected; on the source, DataSource("") succeeds and stores "". -/
theorem dataSource_empty_name_accepted :
    dataSourceNew "" = .ok { source_name := "" } := rfl

/-- C6 amended: for every string s, including the empty string,
construction succeeds and stores exactly s, exposed unchanged as the
source name; no non-emptiness validation exists. -/
theorem dataSource_stores_any_name (s : String) :
    dataSourceNew s = .ok { source_name := s } := rfl

/-- C7: has_twitter_access is true exactly when the bearer token is present
and its length strictly exceeds 50 characters; for a token of length at
most 50, or an absent token, it is false. -/
theorem has_twitter_access_iff (c : APIConfig) :
    c.has_twitter_access = true ↔
      ∃ t, c.twitter_bearer_token = some t ∧ 50 < t.length := by
  obtain ⟨tok, nk, ak⟩ := c
  cases tok with
  | none =>
    simp [APIConfig.has_twitter_access]
  | some t =>
    simp only [APIConfig.has_twitter_access, pyTruthyStr, Bool.and_eq_true,
      decide_eq_true_eq, Option.some.injEq]
    constructor
    · rintro ⟨-, h2⟩
      exact ⟨t, rfl, h2⟩
    · rintro ⟨t2, rfl, h2⟩
      refine ⟨?_, h2⟩
      intro he
      subst he
      simp at h2

/-- C9: after any successful configuration initialization, the
lookback-days field equals 7; _initialize never passes it, so it always
takes the dataclass default. -/
theorem lookback_days_always_seven (env : Env) (fs : FS) (c : ConfigObj)
    (h : configInit env fs = .ok c) :
    ∃ a, c.analysis = some a ∧ a.lookback_period_days = 7 := by
  obtain ⟨i, t, -, -, ha⟩ := configInit_ok_inv env fs c h
  exact ⟨_, ha, rfl⟩

/-- Witness for C9: initialization at the empty environment succeeds with
cfgEx, whose lookback-days field is 7. -/
theorem lookback_days_always_seven_witness :
    ∃ a, cfgEx.analysis = some a ∧ a.lookback_period_days = 7 :=
  lookback_days_always_seven envNone fsTrue cfgEx (by decide)

/-- C3: with SYMBOLS_TO_TRACK unset, successful initialization yields
exactly the three-symbol environment-parsing default; the five-symbol
dataclass-level default appears only when the dataclass is constructed
with no symbols argument at all, and any supplied symbols argument is
stored verbatim. -/
theorem symbols_env_default_vs_dataclass_default :
    (∀ (env : Env) (fs : FS) (c : ConfigObj),
      env "SYMBOLS_TO_TRACK" = none → configInit env fs = .ok c →
      ∃ a, c.analysis = some a ∧
        a.symbols_to_track = ["AAPL", "GOOGL", "MSFT"]) ∧
    (∀ i t l, (mkAnalysisConfig none i t l).symbols_to_track
      = ["AAPL", "GOOGL", "MSFT", "TSLA", "BTC-USD"]) ∧
    (∀ syms i t l,
      (mkAnalysisConfig (some syms) i t l).symbols_to_track = syms) := by
  refine ⟨fun env fs c hsym h => ?_, fun i t l => rfl, fun syms i t l => rfl⟩
  obtain ⟨i, t, -, -, ha⟩ := configInit_ok_inv env fs c h
  refine ⟨_, ha, ?_⟩
  show (pySplitStr ',' (getenvD env "SYMBOLS_TO_TRACK" "AAPL,GOOGL,MSFT"))
    = ["AAPL", "GOOGL", "MSFT"]
  unfold getenvD
  rw [hsym]
  decide

/-- Witness for C3: at the empty environment, initialization succeeds and
the tracked symbols are the three-symbol list; constructing the dataclass
with no symbols argument yields the five-symbol list; a supplied list is
stored verbatim. -/
theorem symbols_env_default_vs_dataclass_default_witness :
    (∃ a, cfgEx.analysis = some a ∧
      a.symbols_to_track = ["AAPL", "GOOGL", "MSFT"]) ∧
    (mkAnalysisConfig none none none none).symbols_to_track
      = ["AAPL", "GOOGL", "MSFT", "TSLA", "BTC-USD"] ∧
    (mkAnalysisConfig (some ["X"]) none none none).symbols_to_track = ["X"] :=
  ⟨symbols_env_default_vs_dataclass_default.1 envNone fsTrue cfgEx rfl
      (by decide),
   symbols_env_default_vs_dataclass_default.2.1 none none none,
   symbols_env_default_vs_dataclass_default.2.2 ["X"] none none none⟩

/-- C1: whenever the configured service-account path (the value of
FIREBASE_SERVICE_ACCOUNT, or the default ./service_account.json when
unset) does not exist, initialization fails with a FileNotFoundError whose
message names that path — for every environment, in particular regardless
of malformed UPDATE_INTERVAL or SENTIMENT_THRESHOLD values, because the
Firebase credentials are built and validated first. -/
theorem missing_credential_file_aborts (env : Env) (fs : FS)
    (h : fs (getenvD env "FIREBASE_SERVICE_ACCOUNT" "./service_account.json")
      = false) :
    configInit env fs = .error (.fileNotFound
      ("Firebase service account file not found: "
        ++ getenvD env "FIREBASE_SERVICE_ACCOUNT" "./service_account.json")) := by
  simp [configInit, runInit, mkFirebaseConfig, h]

/-- Witness for C1: an environment with UPDATE_INTERVAL set to the
non-numeric "abc" and the service-account variable pointing at
/missing/creds.json, on a file system with no files, still fails with the
FileNotFoundError naming /missing/creds.json. -/
theorem missing_credential_file_aborts_witness :
    configInit envBadBoth fsFalse = .error (.fileNotFound
      "Firebase service account file not found: /missing/creds.json") :=
  (missing_credential_file_aborts envBadBoth fsFalse (by decide)).trans
    (by decide)

/-- C2: the first request binds the class-level slot to the constructed
object; any request made on a filled slot returns exactly the held object,
for every (possibly different) environment and file system — so no later
request re-reads the environment or re-checks the credential file — and a
successful first request returns the very object left in the slot. -/
theorem config_handle_singleton (env : Env) (fs : FS) (env2 : Env)
    (fs2 : FS) :
    (configNew env fs none).1 = some (runInit env fs).1 ∧
    (∀ c, (configNew env fs none).2 = .ok c → c = (runInit env fs).1) ∧
    configNew env2 fs2 (some (runInit env fs).1)
      = (some (runInit env fs).1, .ok (runInit env fs).1) := by
  refine ⟨?_, ?_, rfl⟩
  · unfold configNew
    rcases h : runInit env fs with ⟨obj, err⟩
    cases err <;> simp [h]
  · intro c hc
    unfold configNew at hc
    rcases h : runInit env fs with ⟨obj, err⟩
    rw [h] at hc
    cases err with
    | none =>
      simp only at hc
      injection hc with hc2
      simp [h, ← hc2]
    | some e => simp at hc

/-- Witness for C2: after a first request on the empty environment, the
slot holds cfgEx; a second request made with a file system on which no
path exists still returns cfgEx without error. -/
theorem config_handle_singleton_witness :
    (configNew envNone fsTrue none).1 = some (runInit envNone fsTrue).1 ∧
    cfgEx = (runInit envNone fsTrue).1 ∧
    configNew envNone fsFalse (some (runInit envNone fsTrue).1)
      = (some (runInit envNone fsTrue).1, .ok (runInit envNone fsTrue).1) :=
  ⟨(config_handle_singleton envNone fsTrue envNone fsFalse).1,
   (config_handle_singleton envNone fsTrue envNone fsFalse).2.1 cfgEx
     (by decide),
   (config_handle_singleton envNone fsTrue envNone fsFalse).2.2⟩

/-- C4: when the first request raises during initialization, the slot has
nevertheless been bound to the partially-initialized object, and every
subsequent request — under any environment and file system — returns that
partial object without raising and without re-running initialization. -/
theorem failed_first_call_keeps_slot_bound (env : Env) (fs : FS)
    (e : ConfigError) (h : (configNew env fs none).2 = .error e) :
    (configNew env fs none).1 = some (runInit env fs).1 ∧
    ∀ (env2 : Env) (fs2 : FS),
      configNew env2 fs2 (some (runInit env fs).1)
        = (some (runInit env fs).1, .ok (runInit env fs).1) := by
  refine ⟨?_, fun env2 fs2 => rfl⟩
  unfold configNew
  rcases hr : runInit env fs with ⟨obj, err⟩
  cases err <;> simp [hr]

/-- Witness for C4: with no credential file the first request raises
FileNotFoundError, the slot holds the partial object, and a later request
on a different environment returns it without error. -/
theorem failed_first_call_keeps_slot_bound_witness :
    (configNew envNone fsFalse none).1 = some (runInit envNone fsFalse).1 ∧
    configNew envBadInt fsTrue (some (runInit envNone fsFalse).1)
      = (some (runInit envNone fsFalse).1, .ok (runInit envNone fsFalse).1) :=
  ⟨(failed_first_call_keeps_slot_bound envNone fsFalse
      (.fileNotFound
        "Firebase service account file not found: ./service_account.json")
      (by decide)).1,
   (failed_first_call_keeps_slot_bound envNone fsFalse
      (.fileNotFound
        "Firebase service account file not found: ./service_account.json")
      (by decide)).2 envBadInt fsTrue⟩

/-- Wrapping char lists as strings and unwrapping them is the identity. -/
theorem map_data_map_mk (L : List (List Char)) :
    (L.map String.mk).map String.data = L := by
  induction L with
  | nil => rfl
  | cons x xs ih =>
    simp only [List.map_cons]
    rw [ih]

/-- C8: with the credential file present, setting UPDATE_INTERVAL to "30"
and SENTIMENT_THRESHOLD to "0.5" yields integer 30 and the value one half
in the analysis parameters; a non-numeric UPDATE_INTERVAL makes
initialization fail with the int ValueError, and a non-numeric
SENTIMENT_THRESHOLD makes initialization fail with some error — there is
no partial configuration. -/
theorem numeric_env_parsing (env : Env) (fs : FS)
    (hfs : fs (getenvD env "FIREBASE_SERVICE_ACCOUNT" "./service_account.json")
      = true) :
    (env "UPDATE_INTERVAL" = some "30" →
      env "SENTIMENT_THRESHOLD" = some "0.5" →
      ∃ c a, configInit env fs = .ok c ∧ c.analysis = some a ∧
        a.update_interval_minutes = 30 ∧ a.sentiment_threshold = 1 / 2) ∧
    (∀ s, env "UPDATE_INTERVAL" = some s → pyInt s = none →
      configInit env fs = .error (.valueError
        ("invalid literal for int() with base 10: " ++ s))) ∧
    (∀ s, env "SENTIMENT_THRESHOLD" = some s → pyFloat s = none →
      ∃ e, configInit env fs = .error e) := by
  have hfb : mkFirebaseConfig
      (getenvD env "FIREBASE_PROJECT_ID" "market-sentiment-analyzer")
      (getenvD env "FIREBASE_SERVICE_ACCOUNT" "./service_account.json")
      (getenvD env "FIREBASE_DATABASE_URL"
        "https://market-sentiment-analyzer.firebaseio.com") fs
      = .ok ⟨getenvD env "FIREBASE_PROJECT_ID" "market-sentiment-analyzer",
          getenvD env "FIREBASE_SERVICE_ACCOUNT" "./service_account.json",
          getenvD env "FIREBASE_DATABASE_URL"
            "https://market-sentiment-analyzer.firebaseio.com"⟩ := by
    simp [mkFirebaseConfig, hfs]
  refine ⟨fun h1 h2 => ?_, fun s hs hnone => ?_, fun s hs hnone => ?_⟩
  · have hint : pyInt (getenvD env "UPDATE_INTERVAL" "15") = some 30 := by
      unfold getenvD
      rw [h1]
      decide
    have hflt : pyFloat (getenvD env "SENTIMENT_THRESHOLD" "0.3")
        = some (mkRat 1 2) := by
      unfold getenvD
      rw [h2]
      decide
    have han : mkAnalysisFromEnv env = .ok (mkAnalysisConfig
        (some (pySplitStr ','
          (getenvD env "SYMBOLS_TO_TRACK" "AAPL,GOOGL,MSFT")))
        (some 30) (some (mkRat 1 2)) none) := by
      simp only [mkAnalysisFromEnv]
      rw [hint, hflt]
    have hci : configInit env fs = .ok
        ⟨some ⟨getenvD env "FIREBASE_PROJECT_ID" "market-sentiment-analyzer",
            getenvD env "FIREBASE_SERVICE_ACCOUNT" "./service_account.json",
            getenvD env "FIREBASE_DATABASE_URL"
              "https://market-sentiment-analyzer.firebaseio.com"⟩,
          some ⟨env "TWITTER_BEARER_TOKEN", env "NEWSAPI_KEY",
            env "ALPHA_VANTAGE_KEY"⟩,
          some (mkAnalysisConfig
            (some (pySplitStr ','
              (getenvD env "SYMBOLS_TO_TRACK" "AAPL,GOOGL,MSFT")))
            (some 30) (some (mkRat 1 2)) none),
          some (getenvD env "LOG_LEVEL" "INFO")⟩ := by
      simp [configInit, runInit, hfb, han]
    have hthr : (mkRat 1 2 : Rat) = 1 / 2 := by
      rw [Rat.mkRat_eq_div]
      norm_num
    exact ⟨_, _, hci, rfl, rfl, hthr⟩
  · have hgd : getenvD env "UPDATE_INTERVAL" "15" = s := by
      unfold getenvD
      rw [hs]
      rfl
    have han : mkAnalysisFromEnv env = .error (.valueError
        ("invalid literal for int() with base 10: " ++ s)) := by
      simp only [mkAnalysisFromEnv]
      rw [hgd, hnone]
    simp [configInit, runInit, hfb, han]
  · cases hpi : pyInt (getenvD env "UPDATE_INTERVAL" "15") with
    | none =>
      have han : mkAnalysisFromEnv env = .error (.valueError
          ("invalid literal for int() with base 10: "
            ++ getenvD env "UPDATE_INTERVAL" "15")) := by
        simp only [mkAnalysisFromEnv]
        rw [hpi]
      exact ⟨.valueError ("invalid literal for int() with base 10: "
          ++ getenvD env "UPDATE_INTERVAL" "15"),
        by simp [configInit, runInit, hfb, han]⟩
    | some i =>
      have hgd : getenvD env "SENTIMENT_THRESHOLD" "0.3" = s := by
        unfold getenvD
        rw [hs]
        rfl
      have han : mkAnalysisFromEnv env = .error (.valueError
          ("could not convert string to float: " ++ s)) := by
        simp only [mkAnalysisFromEnv]
        rw [hpi, hgd, hnone]
      exact ⟨.valueError ("could not convert string to float: " ++ s),
        by simp [configInit, runInit, hfb, han]⟩

/-- Witness for C8: on concrete environments, UPDATE_INTERVAL "30" with
SENTIMENT_THRESHOLD "0.5" produces 30 and one half; UPDATE_INTERVAL "abc"
produces the int ValueError; SENTIMENT_THRESHOLD "xyz" produces an error. -/
theorem numeric_env_parsing_witness :
    (∃ c a, configInit envNum fsTrue = .ok c ∧ c.analysis = some a ∧
      a.update_interval_minutes = 30 ∧ a.sentiment_threshold = 1 / 2) ∧
    configInit envBadInt fsTrue = .error (.valueError
      "invalid literal for int() with base 10: abc") ∧
    (∃ e, configInit envBadFloat fsTrue = .error e) := by
  refine ⟨(numeric_env_parsing envNum fsTrue (by decide)).1 (by decide)
      (by decide), ?_,
    (numeric_env_parsing envBadFloat fsTrue (by decide)).2.2 "xyz" (by decide)
      (by decide)⟩
  exact ((numeric_env_parsing envBadInt fsTrue (by decide)).2.1 "abc"
    (by decide) (by decide)).trans (by decide)

/-- C10: when SYMBOLS_TO_TRACK is set to s, the tracked symbols are the
verbatim comma-split of s — joining them back with commas restores s
exactly, so nothing is trimmed, filtered, or validated — the list length is
the comma count plus one, it is never empty, and the empty string yields
the one-element list containing the empty string. -/
theorem symbols_split_verbatim (env : Env) (fs : FS) (s : String)
    (c : ConfigObj) (hs : env "SYMBOLS_TO_TRACK" = some s)
    (h : configInit env fs = .ok c) :
    ∃ a, c.analysis = some a ∧
      a.symbols_to_track = pySplitStr ',' s ∧
      a.symbols_to_track.length = countChar ',' s + 1 ∧
      a.symbols_to_track ≠ [] ∧
      pyJoin ',' (a.symbols_to_track.map String.data) = s.data ∧
      (s = "" → a.symbols_to_track = [""]) := by
  obtain ⟨i, t, -, -, ha⟩ := configInit_ok_inv env fs c h
  have hgd : getenvD env "SYMBOLS_TO_TRACK" "AAPL,GOOGL,MSFT" = s := by
    unfold getenvD
    rw [hs]
    rfl
  rw [hgd] at ha
  refine ⟨_, ha, rfl, ?_, ?_, ?_, ?_⟩
  · show (pySplitStr ',' s).length = countChar ',' s + 1
    unfold pySplitStr countChar
    rw [List.length_map, pySplit_length]
  · show pySplitStr ',' s ≠ []
    unfold pySplitStr
    intro hnil
    exact pySplit_ne_nil ',' s.data (List.map_eq_nil_iff.mp hnil)
  · show pyJoin ',' ((pySplitStr ',' s).map String.data) = s.data
    unfold pySplitStr
    rw [map_data_map_mk, pyJoin_pySplit]
  · intro he
    subst he
    show pySplitStr ',' "" = [""]
    decide

/-- Witness for C10: with SYMBOLS_TO_TRACK set to " AAPL ,MSFT",
initialization stores the fields [" AAPL ", "MSFT"] with the leading and
trailing spaces preserved. -/
theorem symbols_split_verbatim_witness :
    ∃ a, cfgSym.analysis = some a ∧
      a.symbols_to_track = pySplitStr ',' " AAPL ,MSFT" ∧
      a.symbols_to_track.length = countChar ',' " AAPL ,MSFT" + 1 ∧
      a.symbols_to_track ≠ [] ∧
      pyJoin ',' (a.symbols_to_track.map String.data) = " AAPL ,MSFT".data ∧
      (" AAPL ,MSFT" = "" → a.symbols_to_track = [""]) :=
  symbols_split_verbatim envSym fsTrue " AAPL ,MSFT" cfgSym (by decide)
    (by decide)
